import Mathlib

/-!
Shallow embedding of the reward-payout service in `src/app.py`.

The whole service is one Flask module: a global in-memory idempotency map
`PAID`, a sweep function `cleanup_paid`, and the request handler
`reward_send`.  We embed the handler as a pure function of

  * the configuration read from the environment at startup
    (`REWARD_SOL_DEFAULT`, the payer wallet string),
  * an abstract pubkey parser standing for `Pubkey.from_string`
    (external Solana library code: we only observe success/failure),
  * a per-request oracle for the ledger gateway
    (`client.get_latest_blockhash` / `client.send_transaction`),
  * the two `time.time()` readings of a request (one in `cleanup_paid`,
    one at the record write on line 144),
  * the current `PAID` store and the decoded JSON body.

It returns the HTTP response, the new store, and a flag recording whether
the ledger gateway was invoked during the request.

Python floats are modelled as rationals extended with `nan`, `inf`, `ninf`,
with IEEE comparison semantics (every comparison against `nan` is false).
The exact value of `lamports = int(amount_sol * LAMPORTS_PER_SOL)` is not
the subject of any claim; what matters is that `int()` raises on `nan`
(an unhandled exception, since line 113 of `app.py` sits outside the
`try` block), which we model as the `Response.unhandled` outcome.
-/

/-- Python float values as far as this program observes them: a rational
number, `nan`, or a signed infinity.  `float(x)` results land here. -/
inductive FloatVal : Type where
  | num (q : ℚ)
  | inf
  | ninf
  | nan
  deriving DecidableEq

/-- IEEE `<=` on floats: any comparison involving `nan` is false. -/
def FloatVal.fle : FloatVal → FloatVal → Bool
  | .nan, _ => false
  | _, .nan => false
  | .ninf, _ => true
  | _, .ninf => false
  | _, .inf => true
  | .inf, _ => false
  | .num a, .num b => decide (a ≤ b)

/-- IEEE `<` on floats: any comparison involving `nan` is false. -/
def FloatVal.flt : FloatVal → FloatVal → Bool
  | .nan, _ => false
  | _, .nan => false
  | .ninf, .ninf => false
  | .ninf, _ => true
  | _, .ninf => false
  | .inf, _ => false
  | _, .inf => true
  | .num a, .num b => decide (a < b)

/-- `LAMPORTS_PER_SOL = 1_000_000_000` (app.py line 27). -/
def LAMPORTS_PER_SOL : ℚ := 1000000000

/-- Python `int()` truncates toward zero. -/
def truncToInt (q : ℚ) : ℤ := if 0 ≤ q then ⌊q⌋ else ⌈q⌉

/-- `int(amount_sol * LAMPORTS_PER_SOL)` (app.py line 113): raises
(`none`) on `nan` and infinities, otherwise truncates toward zero. -/
def toLamports : FloatVal → Option ℤ
  | .num q => some (truncToInt (q * LAMPORTS_PER_SOL))
  | _ => none

/-- The `amount_sol` JSON field after `float(...)`: either it parsed to a
float value, or `float(...)` raised (non-numeric string, null, dict, ...). -/
inductive RawAmount : Type where
  | parsed (v : FloatVal)
  | unparseable
  deriving DecidableEq

/-- The `idempotency_key` JSON field: an arbitrary JSON value, of which the
handler observes only its Python truthiness (`if idem_key:`) and its
string form `str(idem_key)`. -/
structure IdemVal : Type where
  truthy : Bool
  toStr : String
  deriving DecidableEq

/-- Decoded JSON body of `POST /reward/send`.  `none` means the key is
absent from the body (for `amount_sol`, `body.get` then substitutes the
configured default). -/
structure Request : Type where
  receiver : Option String
  amount_sol : Option RawAmount
  idem_key : Option IdemVal
  deriving DecidableEq

/-- Startup configuration: `REWARD_SOL_DEFAULT` (a parsed float, default
0.01) and `str(payer_pubkey)`. -/
structure Config : Type where
  default_amount : FloatVal
  from_wallet : String

/-- Per-request outcome of the ledger gateway: `get_latest_blockhash`
raises, `send_transaction` raises, or the submission succeeds with a
signature. -/
inductive GatewayResult : Type where
  | blockhashFail (msg : String)
  | sendFail (msg : String)
  | success (sig : String)
  deriving DecidableEq

/-- The exception message wrapped by the handler's `except` clause. -/
def GatewayResult.errMsg : GatewayResult → String
  | .blockhashFail m => m
  | .sendFail m => m
  | .success _ => ""

/-- True when the gateway outcome is a raised exception. -/
def GatewayResult.isFail : GatewayResult → Bool
  | .success _ => false
  | _ => true

/-- Body of a 200 response (app.py lines 104-111 and 146-153). -/
structure OkBody : Type where
  signature : String
  already_paid : Bool
  from_wallet : String
  to_wallet : String
  amount_sol : FloatVal
  deriving DecidableEq

/-- HTTP outcome of one request: 200 with a JSON body, 400 with an error
string, 500 with an error string, or an exception that escapes the handler
(Flask's generic 500 page — reachable via `int(nan * 1e9)` on line 113). -/
inductive Response : Type where
  | success (b : OkBody)
  | clientError (msg : String)
  | serverError (msg : String)
  | unhandled
  deriving DecidableEq

/-- True exactly on 400 responses. -/
def Response.isClientError : Response → Bool
  | .clientError _ => true
  | _ => false

/-- True exactly on 500 responses produced by the `except` clause. -/
def Response.isServerError : Response → Bool
  | .serverError _ => true
  | _ => false

/-- One entry of the `PAID` map: key `(receiver, str(idem_key))`, value
`(signature, time.time())`. -/
abbrev Entry : Type := (String × String) × (String × ℚ)

/-- The `PAID` map (app.py line 42), as an association list with
dict semantics (at most one entry per key via `storeInsert`). -/
abbrev Store : Type := List Entry

/-- `PAID_TTL_SEC = 60 * 60 * 24 * 7` (app.py line 43). -/
def PAID_TTL_SEC : ℚ := 60 * 60 * 24 * 7

/-- `cleanup_paid` (app.py lines 46-50): drop every entry whose timestamp
satisfies `now - ts > PAID_TTL_SEC`, keep the rest. -/
def cleanup_paid (now : ℚ) (st : Store) : Store :=
  st.filter (fun e => !decide (now - e.2.2 > PAID_TTL_SEC))

/-- `k in PAID` / `PAID[k]`: first entry with the given key. -/
def storeLookup (st : Store) (k : String × String) : Option (String × ℚ) :=
  (st.find? (fun e => e.1 = k)).map (fun e => e.2)

/-- `PAID[k] = v`: dict update, replacing any previous entry for `k`. -/
def storeInsert (st : Store) (k : String × String) (v : String × ℚ) : Store :=
  (k, v) :: st.filter (fun e => !decide (e.1 = k))

/-- `if idem_key:` combined with `str(idem_key)`: the key string the
handler uses, or `none` when the field is absent or falsy. -/
def idemGet : Option IdemVal → Option String
  | some v => if v.truthy then some v.toStr else none
  | none => none

/-- The literal `0.5` of app.py line 88 (exact as a binary float). -/
def MAX_AMOUNT_SOL : ℚ := mkRat 1 2

/-- The amount validation test on app.py line 88:
`amount_sol <= 0 or amount_sol > 0.5` (IEEE comparisons, so `nan`
passes the test unrejected). -/
def amountOutOfRange (v : FloatVal) : Bool :=
  v.fle (.num 0) || (FloatVal.num MAX_AMOUNT_SOL).flt v

/-- Result of one request: response, new `PAID` store, and whether the
ledger gateway was invoked. -/
structure StepResult : Type where
  resp : Response
  store : Store
  ledgerInvoked : Bool
  deriving DecidableEq

/-- `reward_send` (app.py lines 63-153), embedded step by step:
sweep, receiver presence, amount validation, pubkey validation,
idempotency fast path, lamports conversion, gateway call, record write. -/
def reward_send (cfg : Config) (parsePk : String → Bool) (gw : GatewayResult)
    (now1 now2 : ℚ) (st0 : Store) (req : Request) : StepResult :=
  let st := cleanup_paid now1 st0
  match req.receiver with
  | none => ⟨.clientError "Missing receiver_wallet_address", st, false⟩
  | some receiver =>
    if receiver = "" then
      ⟨.clientError "Missing receiver_wallet_address", st, false⟩
    else
      match req.amount_sol.getD (.parsed cfg.default_amount) with
      | .unparseable => ⟨.clientError "Invalid amount_sol", st, false⟩
      | .parsed v =>
        if amountOutOfRange v then
          ⟨.clientError "amount_sol out of allowed range", st, false⟩
        else if !parsePk receiver then
          ⟨.clientError "Invalid receiver wallet address", st, false⟩
        else
          match (idemGet req.idem_key).bind
              (fun kstr => storeLookup st (receiver, kstr)) with
          | some rec0 =>
            ⟨.success ⟨rec0.1, true, cfg.from_wallet, receiver, v⟩, st, false⟩
          | none =>
            match toLamports v with
            | none => ⟨.unhandled, st, false⟩
            | some _ =>
              match gw with
              | .blockhashFail m =>
                ⟨.serverError ("Transfer failed: " ++ m), st, true⟩
              | .sendFail m =>
                ⟨.serverError ("Transfer failed: " ++ m), st, true⟩
              | .success sig =>
                match idemGet req.idem_key with
                | some kstr =>
                  ⟨.success ⟨sig, false, cfg.from_wallet, receiver, v⟩,
                    storeInsert st (receiver, kstr) (sig, now2), true⟩
                | none =>
                  ⟨.success ⟨sig, false, cfg.from_wallet, receiver, v⟩,
                    st, true⟩

/-- The default configuration when no environment is given:
`REWARD_SOL_DEFAULT = 0.01` (app.py line 21; the decimal literal is
modelled by the exact rational 1/100, which agrees with the float on
every comparison the program makes). -/
def defaultConfig (w : String) : Config := ⟨.num (mkRat 1 100), w⟩

/-! ## Store lemmas -/

/-- Membership in the swept store: exactly the entries of the original
store whose age does not exceed the TTL. -/
theorem mem_cleanup_iff (n : ℚ) (st : Store) (e : Entry) :
    e ∈ cleanup_paid n st ↔ (e ∈ st ∧ ¬(n - e.2.2 > PAID_TTL_SEC)) := by
  simp [cleanup_paid, List.mem_filter]

/-- `storeLookup` misses exactly when no entry carries the key. -/
theorem storeLookup_eq_none_iff (st : Store) (k : String × String) :
    storeLookup st k = none ↔ ∀ e ∈ st, ¬(e.1 = k) := by
  simp [storeLookup, List.find?_eq_none]

/-- Sweeping only removes entries, so a missing key stays missing. -/
theorem storeLookup_cleanup_of_none (n : ℚ) (st : Store) (k : String × String)
    (h : storeLookup st k = none) : storeLookup (cleanup_paid n st) k = none := by
  rw [storeLookup_eq_none_iff] at h ⊢
  intro e he
  exact h e ((mem_cleanup_iff n st e).mp he).1

/-- If every entry carrying the key is older than the TTL, the sweep
removes them all and the lookup misses. -/
theorem storeLookup_cleanup_of_expired (n : ℚ) (st : Store) (k : String × String)
    (h : ∀ e ∈ st, e.1 = k → n - e.2.2 > PAID_TTL_SEC) :
    storeLookup (cleanup_paid n st) k = none := by
  rw [storeLookup_eq_none_iff]
  intro e he hk
  obtain ⟨hmem, hkeep⟩ := (mem_cleanup_iff n st e).mp he
  exact hkeep (h e hmem hk)

/-- A freshly inserted record survives a sweep within the TTL and is
returned by the lookup. -/
theorem storeLookup_cleanup_insert (n : ℚ) (st : Store) (k : String × String)
    (v : String × ℚ) (h : ¬(n - v.2 > PAID_TTL_SEC)) :
    storeLookup (cleanup_paid n (storeInsert st k v)) k = some v := by
  simp [cleanup_paid, storeInsert, storeLookup, List.filter_cons, h, List.find?]

/-! ## Spine lemmas: the four ways a valid request ends -/

/-- Fast path (app.py lines 100-111): key present, record found after the
sweep.  Ends with the stored signature, `already_paid = true`, the current
request's amount echoed, the swept store, and no ledger interaction —
whatever the gateway oracle would have answered. -/
theorem reward_send_fastpath (cfg : Config) (parsePk : String → Bool)
    (gw : GatewayResult) (now1 now2 : ℚ) (st0 : Store)
    (rcv kstr T : String) (ts : ℚ) (v : FloatVal)
    (amt : Option RawAmount) (ik : Option IdemVal)
    (hrcv : ¬(rcv = ""))
    (hamt : amt.getD (.parsed cfg.default_amount) = .parsed v)
    (hrange : amountOutOfRange v = false)
    (hpk : parsePk rcv = true)
    (hkey : idemGet ik = some kstr)
    (hhit : storeLookup (cleanup_paid now1 st0) (rcv, kstr) = some (T, ts)) :
    reward_send cfg parsePk gw now1 now2 st0 ⟨some rcv, amt, ik⟩ =
      ⟨.success ⟨T, true, cfg.from_wallet, rcv, v⟩, cleanup_paid now1 st0, false⟩ := by
  simp [reward_send, hrcv, hamt, hrange, hpk, hkey, hhit]

/-- Gateway failure (app.py lines 140-141): validation passed, no fast
path hit, the gateway raised.  Ends in a 500 wrapping the exception
message, with no record written. -/
theorem reward_send_gateway_failure (cfg : Config) (parsePk : String → Bool)
    (gw : GatewayResult) (now1 now2 : ℚ) (st0 : Store)
    (rcv : String) (a : ℚ)
    (amt : Option RawAmount) (ik : Option IdemVal)
    (hrcv : ¬(rcv = ""))
    (hamt : amt.getD (.parsed cfg.default_amount) = .parsed (.num a))
    (hrange : amountOutOfRange (.num a) = false)
    (hpk : parsePk rcv = true)
    (hmiss : (idemGet ik).bind
      (fun kstr => storeLookup (cleanup_paid now1 st0) (rcv, kstr)) = none)
    (hfail : gw.isFail = true) :
    reward_send cfg parsePk gw now1 now2 st0 ⟨some rcv, amt, ik⟩ =
      ⟨.serverError ("Transfer failed: " ++ gw.errMsg),
        cleanup_paid now1 st0, true⟩ := by
  cases gw with
  | blockhashFail m =>
    simp [reward_send, hrcv, hamt, hrange, hpk, hmiss, toLamports, GatewayResult.errMsg]
  | sendFail m =>
    simp [reward_send, hrcv, hamt, hrange, hpk, hmiss, toLamports, GatewayResult.errMsg]
  | success sig => simp [GatewayResult.isFail] at hfail

/-- Successful submission with a truthy key (app.py lines 143-153):
the signature is recorded under `(receiver, str(idem_key))` with the
second clock reading. -/
theorem reward_send_submit_keyed (cfg : Config) (parsePk : String → Bool)
    (sig : String) (now1 now2 : ℚ) (st0 : Store)
    (rcv kstr : String) (a : ℚ)
    (amt : Option RawAmount) (ik : Option IdemVal)
    (hrcv : ¬(rcv = ""))
    (hamt : amt.getD (.parsed cfg.default_amount) = .parsed (.num a))
    (hrange : amountOutOfRange (.num a) = false)
    (hpk : parsePk rcv = true)
    (hkey : idemGet ik = some kstr)
    (hmiss : storeLookup (cleanup_paid now1 st0) (rcv, kstr) = none) :
    reward_send cfg parsePk (.success sig) now1 now2 st0 ⟨some rcv, amt, ik⟩ =
      ⟨.success ⟨sig, false, cfg.from_wallet, rcv, .num a⟩,
        storeInsert (cleanup_paid now1 st0) (rcv, kstr) (sig, now2), true⟩ := by
  simp [reward_send, hrcv, hamt, hrange, hpk, hkey, hmiss, toLamports]

/-- Successful submission without a (truthy) key (app.py lines 146-153):
same 200 response, but nothing is recorded. -/
theorem reward_send_submit_keyless (cfg : Config) (parsePk : String → Bool)
    (sig : String) (now1 now2 : ℚ) (st0 : Store)
    (rcv : String) (a : ℚ)
    (amt : Option RawAmount) (ik : Option IdemVal)
    (hrcv : ¬(rcv = ""))
    (hamt : amt.getD (.parsed cfg.default_amount) = .parsed (.num a))
    (hrange : amountOutOfRange (.num a) = false)
    (hpk : parsePk rcv = true)
    (hkey : idemGet ik = none) :
    reward_send cfg parsePk (.success sig) now1 now2 st0 ⟨some rcv, amt, ik⟩ =
      ⟨.success ⟨sig, false, cfg.from_wallet, rcv, .num a⟩,
        cleanup_paid now1 st0, true⟩ := by
  simp [reward_send, hrcv, hamt, hrange, hpk, hkey, toLamports]

/-- Any gateway outcome other than the fast path leaves the ledger
invoked, for a validated request that reaches the submission step. -/
theorem reward_send_invoked (cfg : Config) (parsePk : String → Bool)
    (gw : GatewayResult) (now1 now2 : ℚ) (st0 : Store)
    (rcv : String) (a : ℚ)
    (amt : Option RawAmount) (ik : Option IdemVal)
    (hrcv : ¬(rcv = ""))
    (hamt : amt.getD (.parsed cfg.default_amount) = .parsed (.num a))
    (hrange : amountOutOfRange (.num a) = false)
    (hpk : parsePk rcv = true)
    (hmiss : (idemGet ik).bind
      (fun kstr => storeLookup (cleanup_paid now1 st0) (rcv, kstr)) = none) :
    (reward_send cfg parsePk gw now1 now2 st0
      ⟨some rcv, amt, ik⟩).ledgerInvoked = true := by
  cases gw with
  | blockhashFail m => simp [reward_send, hrcv, hamt, hrange, hpk, hmiss, toLamports]
  | sendFail m => simp [reward_send, hrcv, hamt, hrange, hpk, hmiss, toLamports]
  | success sig =>
    cases hkey : idemGet ik with
    | none =>
      simp [reward_send, hrcv, hamt, hrange, hpk, hkey, toLamports]
    | some kstr =>
      rw [hkey] at hmiss
      simp only [Option.some_bind] at hmiss
      simp [reward_send, hrcv, hamt, hrange, hpk, hkey, hmiss, toLamports]

/-! ## Claims -/

/-- Claim C1: after a first submission for `(receiver, k)` succeeds with
transaction id `T`, a later request with the same `(receiver, k)` (within
the TTL) returns a success with `already_paid = true` and the stored
signature `T`, without invoking the ledger gateway again — the result is
the same for every gateway oracle `gw2` and the invocation flag is false. -/
theorem claim_C1_idempotent_repeat (cfg : Config) (parsePk : String → Bool)
    (gw2 : GatewayResult) (now1 now2 now1' now2' : ℚ) (st0 : Store)
    (rcv T kstr : String) (a a' : ℚ) (ik ik' : IdemVal)
    (hrcv : ¬(rcv = ""))
    (hpk : parsePk rcv = true)
    (hrange : amountOutOfRange (.num a) = false)
    (hrange' : amountOutOfRange (.num a') = false)
    (hkey : idemGet (some ik) = some kstr)
    (hkey' : idemGet (some ik') = some kstr)
    (hmiss : storeLookup (cleanup_paid now1 st0) (rcv, kstr) = none)
    (httl : ¬(now1' - now2 > PAID_TTL_SEC)) :
    (reward_send cfg parsePk (.success T) now1 now2 st0
        ⟨some rcv, some (.parsed (.num a)), some ik⟩).resp =
      .success ⟨T, false, cfg.from_wallet, rcv, .num a⟩ ∧
    reward_send cfg parsePk gw2 now1' now2'
        (reward_send cfg parsePk (.success T) now1 now2 st0
          ⟨some rcv, some (.parsed (.num a)), some ik⟩).store
        ⟨some rcv, some (.parsed (.num a')), some ik'⟩ =
      ⟨.success ⟨T, true, cfg.from_wallet, rcv, .num a'⟩,
        cleanup_paid now1'
          (reward_send cfg parsePk (.success T) now1 now2 st0
            ⟨some rcv, some (.parsed (.num a)), some ik⟩).store, false⟩ := by
  have h1 := reward_send_submit_keyed cfg parsePk T now1 now2 st0 rcv kstr a
    (some (.parsed (.num a))) (some ik) hrcv rfl hrange hpk hkey hmiss
  refine ⟨by rw [h1], ?_⟩
  rw [h1]
  exact reward_send_fastpath cfg parsePk gw2 now1' now2' _ rcv kstr T now2
    (.num a') (some (.parsed (.num a'))) (some ik') hrcv rfl hrange' hpk hkey'
    (storeLookup_cleanup_insert now1' (cleanup_paid now1 st0) (rcv, kstr)
      (T, now2) httl)

/-- Witness for C1: first request pays `SIG1`, the identical repeat hits
the fast path even though its gateway oracle would fail. -/
theorem claim_C1_idempotent_repeat_witness :
    (reward_send (defaultConfig "W") (fun _ => true) (.success "SIG1") 0 0 []
        ⟨some "R", some (.parsed (.num (mkRat 1 50))), some ⟨true, "k"⟩⟩).resp =
      .success ⟨"SIG1", false, "W", "R", .num (mkRat 1 50)⟩ ∧
    reward_send (defaultConfig "W") (fun _ => true) (.blockhashFail "down") 0 0
        (reward_send (defaultConfig "W") (fun _ => true) (.success "SIG1") 0 0 []
          ⟨some "R", some (.parsed (.num (mkRat 1 50))), some ⟨true, "k"⟩⟩).store
        ⟨some "R", some (.parsed (.num (mkRat 1 50))), some ⟨true, "k"⟩⟩ =
      ⟨.success ⟨"SIG1", true, "W", "R", .num (mkRat 1 50)⟩,
        cleanup_paid 0
          (reward_send (defaultConfig "W") (fun _ => true) (.success "SIG1") 0 0 []
            ⟨some "R", some (.parsed (.num (mkRat 1 50))), some ⟨true, "k"⟩⟩).store,
        false⟩ :=
  claim_C1_idempotent_repeat (defaultConfig "W") (fun _ => true)
    (.blockhashFail "down") 0 0 0 0 [] "R" "SIG1" "k" (mkRat 1 50) (mkRat 1 50)
    ⟨true, "k"⟩ ⟨true, "k"⟩ (by decide) rfl (by decide) (by decide) rfl rfl rfl
    (by norm_num [PAID_TTL_SEC])

/-- Claim C10: the stored record carries only a signature and a timestamp
(the `Entry` value type), so a duplicate-key hit echoes the *current*
request's `amount_sol` (any `v` accepted by validation) and `to_wallet`
next to the stored signature, with `already_paid = true`, while nothing
is transferred: the ledger is not invoked, the store only swept, and the
outcome is independent of the gateway oracle `gw`. -/
theorem claim_C10_fastpath_echoes_current_request (cfg : Config)
    (parsePk : String → Bool) (gw : GatewayResult) (now1 now2 : ℚ)
    (st0 : Store) (rcv kstr T : String) (ts : ℚ) (v : FloatVal)
    (amt : Option RawAmount) (ik : Option IdemVal)
    (hrcv : ¬(rcv = ""))
    (hamt : amt.getD (.parsed cfg.default_amount) = .parsed v)
    (hrange : amountOutOfRange v = false)
    (hpk : parsePk rcv = true)
    (hkey : idemGet ik = some kstr)
    (hhit : storeLookup (cleanup_paid now1 st0) (rcv, kstr) = some (T, ts)) :
    reward_send cfg parsePk gw now1 now2 st0 ⟨some rcv, amt, ik⟩ =
      ⟨.success ⟨T, true, cfg.from_wallet, rcv, v⟩,
        cleanup_paid now1 st0, false⟩ :=
  reward_send_fastpath cfg parsePk gw now1 now2 st0 rcv kstr T ts v amt ik
    hrcv hamt hrange hpk hkey hhit

/-- Witness for C10: a stored record `("SIG0", t=0)` and a repeat request
asking for a *different* amount 1/4: the response echoes 1/4 while the
ledger stays untouched. -/
theorem claim_C10_fastpath_echoes_current_request_witness :
    reward_send (defaultConfig "W") (fun _ => true) (.success "OTHER") 1 2
        [(("R", "k"), ("SIG0", 0))]
        ⟨some "R", some (.parsed (.num (mkRat 1 4))), some ⟨true, "k"⟩⟩ =
      ⟨.success ⟨"SIG0", true, "W", "R", .num (mkRat 1 4)⟩,
        cleanup_paid 1 [(("R", "k"), ("SIG0", 0))], false⟩ :=
  claim_C10_fastpath_echoes_current_request (defaultConfig "W") (fun _ => true)
    (.success "OTHER") 1 2 [(("R", "k"), ("SIG0", 0))] "R" "k" "SIG0" 0
    (.num (mkRat 1 4)) (some (.parsed (.num (mkRat 1 4)))) (some ⟨true, "k"⟩)
    (by decide) rfl (by decide) rfl rfl
    (by norm_num [cleanup_paid, storeLookup, PAID_TTL_SEC, List.filter, List.find?])

/-- Claim C9: a present-but-falsy `idempotency_key` (empty string, 0,
false, null — anything with Python truthiness false) is ignored: the
request's full outcome equals that of the same request with no key at
all; in particular a successful submission writes no record and invokes
the ledger, exactly like a keyless request. -/
theorem claim_C9_falsy_key_behaves_like_no_key (cfg : Config)
    (parsePk : String → Bool) (gw : GatewayResult) (now1 now2 : ℚ)
    (st0 : Store) (rcv : Option String) (amt : Option RawAmount)
    (v : IdemVal) (rcv2 : String) (a2 : ℚ) (v2 : IdemVal) (sig : String)
    (hv : v.truthy = false)
    (hv2 : v2.truthy = false)
    (hrcv2 : ¬(rcv2 = ""))
    (hpk2 : parsePk rcv2 = true)
    (hrange2 : amountOutOfRange (.num a2) = false) :
    reward_send cfg parsePk gw now1 now2 st0 ⟨rcv, amt, some v⟩ =
      reward_send cfg parsePk gw now1 now2 st0 ⟨rcv, amt, none⟩ ∧
    reward_send cfg parsePk (.success sig) now1 now2 st0
        ⟨some rcv2, some (.parsed (.num a2)), some v2⟩ =
      ⟨.success ⟨sig, false, cfg.from_wallet, rcv2, .num a2⟩,
        cleanup_paid now1 st0, true⟩ := by
  constructor
  · simp [reward_send, idemGet, hv]
  · exact reward_send_submit_keyless cfg parsePk sig now1 now2 st0 rcv2 a2
      (some (.parsed (.num a2))) (some v2) hrcv2 rfl hrange2 hpk2
      (by simp [idemGet, hv2])

/-- Witness for C9: `idempotency_key = ""` (falsy) on a paying request:
identical result to the keyless request, and no record written. -/
theorem claim_C9_falsy_key_behaves_like_no_key_witness :
    reward_send (defaultConfig "W") (fun _ => true) (.success "SIG") 0 0 []
        ⟨some "R", some (.parsed (.num (mkRat 1 50))), some ⟨false, ""⟩⟩ =
      reward_send (defaultConfig "W") (fun _ => true) (.success "SIG") 0 0 []
        ⟨some "R", some (.parsed (.num (mkRat 1 50))), none⟩ ∧
    reward_send (defaultConfig "W") (fun _ => true) (.success "SIG") 0 0 []
        ⟨some "R", some (.parsed (.num (mkRat 1 50))), some ⟨false, ""⟩⟩ =
      ⟨.success ⟨"SIG", false, "W", "R", .num (mkRat 1 50)⟩,
        cleanup_paid 0 [], true⟩ :=
  claim_C9_falsy_key_behaves_like_no_key (defaultConfig "W") (fun _ => true)
    (.success "SIG") 0 0 [] (some "R") (some (.parsed (.num (mkRat 1 50))))
    ⟨false, ""⟩ "R" (mkRat 1 50) ⟨false, ""⟩ "SIG" rfl rfl (by decide) rfl
    (by decide)

/-- Claim C2: when the gateway call fails (blockhash fetch or submission),
the response is the 500 `Transfer failed: ...` and the store is only
swept — no record is written for the key — so a repeat request with the
same `(receiver, k)` finds no record and invokes the ledger again. -/
theorem claim_C2_gateway_failure_leaves_no_record (cfg : Config)
    (parsePk : String → Bool) (gw gw2 : GatewayResult)
    (now1 now2 now1' now2' : ℚ) (st0 : Store)
    (rcv kstr : String) (a a' : ℚ) (ik ik' : IdemVal)
    (hrcv : ¬(rcv = ""))
    (hpk : parsePk rcv = true)
    (hrange : amountOutOfRange (.num a) = false)
    (hrange' : amountOutOfRange (.num a') = false)
    (hkey : idemGet (some ik) = some kstr)
    (hkey' : idemGet (some ik') = some kstr)
    (hmiss : storeLookup (cleanup_paid now1 st0) (rcv, kstr) = none)
    (hfail : gw.isFail = true) :
    (reward_send cfg parsePk gw now1 now2 st0
        ⟨some rcv, some (.parsed (.num a)), some ik⟩).resp =
      .serverError ("Transfer failed: " ++ gw.errMsg) ∧
    (reward_send cfg parsePk gw now1 now2 st0
        ⟨some rcv, some (.parsed (.num a)), some ik⟩).store =
      cleanup_paid now1 st0 ∧
    (reward_send cfg parsePk gw2 now1' now2'
        (reward_send cfg parsePk gw now1 now2 st0
          ⟨some rcv, some (.parsed (.num a)), some ik⟩).store
        ⟨some rcv, some (.parsed (.num a')), some ik'⟩).ledgerInvoked =
      true := by
  have h1 := reward_send_gateway_failure cfg parsePk gw now1 now2 st0 rcv a
    (some (.parsed (.num a))) (some ik) hrcv rfl hrange hpk
    (by rw [hkey]; simpa using hmiss) hfail
  refine ⟨by rw [h1], by rw [h1], ?_⟩
  rw [h1]
  exact reward_send_invoked cfg parsePk gw2 now1' now2' (cleanup_paid now1 st0)
    rcv a' (some (.parsed (.num a'))) (some ik') hrcv rfl hrange' hpk
    (by rw [hkey']
        simpa using storeLookup_cleanup_of_none now1' (cleanup_paid now1 st0)
          (rcv, kstr) hmiss)

/-- Witness for C2: `send_transaction` raises; the repeat request (whose
own gateway oracle succeeds) reaches the ledger again. -/
theorem claim_C2_gateway_failure_leaves_no_record_witness :
    (reward_send (defaultConfig "W") (fun _ => true) (.sendFail "rpc down") 0 0 []
        ⟨some "R", some (.parsed (.num (mkRat 1 50))), some ⟨true, "k"⟩⟩).resp =
      .serverError ("Transfer failed: " ++ (GatewayResult.sendFail "rpc down").errMsg) ∧
    (reward_send (defaultConfig "W") (fun _ => true) (.sendFail "rpc down") 0 0 []
        ⟨some "R", some (.parsed (.num (mkRat 1 50))), some ⟨true, "k"⟩⟩).store =
      cleanup_paid 0 [] ∧
    (reward_send (defaultConfig "W") (fun _ => true) (.success "SIG2") 1 1
        (reward_send (defaultConfig "W") (fun _ => true) (.sendFail "rpc down") 0 0 []
          ⟨some "R", some (.parsed (.num (mkRat 1 50))), some ⟨true, "k"⟩⟩).store
        ⟨some "R", some (.parsed (.num (mkRat 1 50))), some ⟨true, "k"⟩⟩).ledgerInvoked =
      true :=
  claim_C2_gateway_failure_leaves_no_record (defaultConfig "W") (fun _ => true)
    (.sendFail "rpc down") (.success "SIG2") 0 0 1 1 [] "R" "k"
    (mkRat 1 50) (mkRat 1 50) ⟨true, "k"⟩ ⟨true, "k"⟩
    (by decide) rfl (by decide) (by decide) rfl rfl rfl rfl

/-- A validated keyless request always reaches the submission step:
whatever the gateway answers, the ledger is invoked and the store is
only swept. -/
theorem reward_send_keyless_frame (cfg : Config) (parsePk : String → Bool)
    (gw : GatewayResult) (now1 now2 : ℚ) (st0 : Store)
    (rcv : String) (a : ℚ) (amt : Option RawAmount)
    (hrcv : ¬(rcv = ""))
    (hamt : amt.getD (.parsed cfg.default_amount) = .parsed (.num a))
    (hrange : amountOutOfRange (.num a) = false)
    (hpk : parsePk rcv = true) :
    (reward_send cfg parsePk gw now1 now2 st0 ⟨some rcv, amt, none⟩).store =
      cleanup_paid now1 st0 ∧
    (reward_send cfg parsePk gw now1 now2 st0
      ⟨some rcv, amt, none⟩).ledgerInvoked = true := by
  cases gw with
  | blockhashFail m =>
    have h := reward_send_gateway_failure cfg parsePk (.blockhashFail m)
      now1 now2 st0 rcv a amt none hrcv hamt hrange hpk (by simp [idemGet]) rfl
    exact ⟨by rw [h], by rw [h]⟩
  | sendFail m =>
    have h := reward_send_gateway_failure cfg parsePk (.sendFail m)
      now1 now2 st0 rcv a amt none hrcv hamt hrange hpk (by simp [idemGet]) rfl
    exact ⟨by rw [h], by rw [h]⟩
  | success sig =>
    have h := reward_send_submit_keyless cfg parsePk sig now1 now2 st0 rcv a
      amt none hrcv hamt hrange hpk rfl
    exact ⟨by rw [h], by rw [h]⟩

/-- Claim C5: two requests without an idempotency key — here with the
*same* receiver and amount — each invoke the ledger gateway themselves
and write no record: after each request the store is merely swept. -/
theorem claim_C5_keyless_requests_never_deduplicated (cfg : Config)
    (parsePk : String → Bool) (gw1 gw2 : GatewayResult)
    (now1 now2 now1' now2' : ℚ) (st0 : Store) (rcv : String) (a : ℚ)
    (hrcv : ¬(rcv = ""))
    (hpk : parsePk rcv = true)
    (hrange : amountOutOfRange (.num a) = false) :
    (reward_send cfg parsePk gw1 now1 now2 st0
        ⟨some rcv, some (.parsed (.num a)), none⟩).ledgerInvoked = true ∧
    (reward_send cfg parsePk gw1 now1 now2 st0
        ⟨some rcv, some (.parsed (.num a)), none⟩).store =
      cleanup_paid now1 st0 ∧
    (reward_send cfg parsePk gw2 now1' now2'
        (reward_send cfg parsePk gw1 now1 now2 st0
          ⟨some rcv, some (.parsed (.num a)), none⟩).store
        ⟨some rcv, some (.parsed (.num a)), none⟩).ledgerInvoked = true ∧
    (reward_send cfg parsePk gw2 now1' now2'
        (reward_send cfg parsePk gw1 now1 now2 st0
          ⟨some rcv, some (.parsed (.num a)), none⟩).store
        ⟨some rcv, some (.parsed (.num a)), none⟩).store =
      cleanup_paid now1' (cleanup_paid now1 st0) := by
  obtain ⟨hs1, hi1⟩ := reward_send_keyless_frame cfg parsePk gw1 now1 now2 st0
    rcv a (some (.parsed (.num a))) hrcv rfl hrange hpk
  obtain ⟨hs2, hi2⟩ := reward_send_keyless_frame cfg parsePk gw2 now1' now2'
    (cleanup_paid now1 st0) rcv a (some (.parsed (.num a))) hrcv rfl hrange hpk
  rw [hs1]
  exact ⟨hi1, rfl, hi2, hs2⟩

/-- Witness for C5: two identical keyless paying requests both invoke the
ledger and leave the store empty. -/
theorem claim_C5_keyless_requests_never_deduplicated_witness :
    (reward_send (defaultConfig "W") (fun _ => true) (.success "SIG1") 0 0 []
        ⟨some "R", some (.parsed (.num (mkRat 1 50))), none⟩).ledgerInvoked = true ∧
    (reward_send (defaultConfig "W") (fun _ => true) (.success "SIG1") 0 0 []
        ⟨some "R", some (.parsed (.num (mkRat 1 50))), none⟩).store =
      cleanup_paid 0 [] ∧
    (reward_send (defaultConfig "W") (fun _ => true) (.success "SIG2") 1 1
        (reward_send (defaultConfig "W") (fun _ => true) (.success "SIG1") 0 0 []
          ⟨some "R", some (.parsed (.num (mkRat 1 50))), none⟩).store
        ⟨some "R", some (.parsed (.num (mkRat 1 50))), none⟩).ledgerInvoked = true ∧
    (reward_send (defaultConfig "W") (fun _ => true) (.success "SIG2") 1 1
        (reward_send (defaultConfig "W") (fun _ => true) (.success "SIG1") 0 0 []
          ⟨some "R", some (.parsed (.num (mkRat 1 50))), none⟩).store
        ⟨some "R", some (.parsed (.num (mkRat 1 50))), none⟩).store =
      cleanup_paid 1 (cleanup_paid 0 []) :=
  claim_C5_keyless_requests_never_deduplicated (defaultConfig "W")
    (fun _ => true) (.success "SIG1") (.success "SIG2") 0 0 1 1 [] "R"
    (mkRat 1 50) (by decide) rfl (by decide)

/-- Claim C3 (evaluated at the failing input): for real (non-NaN) amounts
the check of app.py line 88 accepts exactly `0 < a <= 0.5`; but `NaN`
passes the check unrejected (both IEEE comparisons are false), and a
request carrying `amount_sol = NaN` with a valid receiver is *not*
answered with a 400 — it reaches `int(amount_sol * LAMPORTS_PER_SOL)`
on line 113, outside the `try`, and dies with an unhandled exception. -/
theorem claim_C3_nan_bypasses_amount_validation :
    (∀ a : ℚ, amountOutOfRange (.num a) = false ↔ (0 < a ∧ a ≤ MAX_AMOUNT_SOL)) ∧
    amountOutOfRange .nan = false ∧
    reward_send (defaultConfig "W") (fun _ => true) (.success "SIG") 0 0 []
        ⟨some "R", some (.parsed .nan), none⟩ =
      ⟨.unhandled, [], false⟩ ∧
    (Response.unhandled).isClientError = false := by
  refine ⟨?_, rfl, rfl, rfl⟩
  intro a
  simp [amountOutOfRange, FloatVal.fle, FloatVal.flt, not_lt, not_le, and_comm]

/-- Claim C4: the sweep keeps exactly the entries aged at most the TTL;
with every record under `(receiver, k)` expired, the lookup after the
sweep misses, and the same-key request performs a fresh submission
(ledger invoked, `already_paid = false`, new record written). -/
theorem claim_C4_sweep_removes_expired_then_fresh_submission (cfg : Config)
    (parsePk : String → Bool) (now1 now2 : ℚ) (st0 : Store)
    (rcv kstr T : String) (a : ℚ) (ik : IdemVal)
    (n : ℚ) (stx : Store) (e : Entry)
    (hrcv : ¬(rcv = ""))
    (hpk : parsePk rcv = true)
    (hrange : amountOutOfRange (.num a) = false)
    (hkey : idemGet (some ik) = some kstr)
    (hexp : ∀ e' ∈ st0, e'.1 = (rcv, kstr) → now1 - e'.2.2 > PAID_TTL_SEC) :
    (e ∈ cleanup_paid n stx ↔ (e ∈ stx ∧ ¬(n - e.2.2 > PAID_TTL_SEC))) ∧
    storeLookup (cleanup_paid now1 st0) (rcv, kstr) = none ∧
    reward_send cfg parsePk (.success T) now1 now2 st0
        ⟨some rcv, some (.parsed (.num a)), some ik⟩ =
      ⟨.success ⟨T, false, cfg.from_wallet, rcv, .num a⟩,
        storeInsert (cleanup_paid now1 st0) (rcv, kstr) (T, now2), true⟩ := by
  have hnone := storeLookup_cleanup_of_expired now1 st0 (rcv, kstr) hexp
  exact ⟨mem_cleanup_iff n stx e, hnone,
    reward_send_submit_keyed cfg parsePk T now1 now2 st0 rcv kstr a
      (some (.parsed (.num a))) (some ik) hrcv rfl hrange hpk hkey hnone⟩

/-- Witness for C4: a record written at t = 0 and a request arriving at
t = 1000000 (past the 604800-second TTL): the sweep drops it and the
request pays afresh with a new signature. -/
theorem claim_C4_sweep_removes_expired_then_fresh_submission_witness :
    ((("R", "k"), ("SIG0", (0 : ℚ))) ∈ cleanup_paid 2 [(("R", "k"), ("SIG0", 0))] ↔
      ((("R", "k"), ("SIG0", (0 : ℚ))) ∈ [(("R", "k"), ("SIG0", (0 : ℚ)))] ∧
        ¬((2 : ℚ) - 0 > PAID_TTL_SEC))) ∧
    storeLookup (cleanup_paid 1000000 [(("R", "k"), ("SIG0", 0))]) ("R", "k") =
      none ∧
    reward_send (defaultConfig "W") (fun _ => true) (.success "SIG1")
        1000000 1000001 [(("R", "k"), ("SIG0", 0))]
        ⟨some "R", some (.parsed (.num (mkRat 1 50))), some ⟨true, "k"⟩⟩ =
      ⟨.success ⟨"SIG1", false, "W", "R", .num (mkRat 1 50)⟩,
        storeInsert (cleanup_paid 1000000 [(("R", "k"), ("SIG0", 0))])
          ("R", "k") ("SIG1", 1000001), true⟩ :=
  claim_C4_sweep_removes_expired_then_fresh_submission (defaultConfig "W")
    (fun _ => true) 1000000 1000001 [(("R", "k"), ("SIG0", 0))] "R" "k" "SIG1"
    (mkRat 1 50) ⟨true, "k"⟩ 2 [(("R", "k"), ("SIG0", 0))]
    (("R", "k"), ("SIG0", 0)) (by decide) rfl (by decide) rfl
    (by intro e' he' hk
        simp only [List.mem_singleton] at he'
        subst he'
        norm_num [PAID_TTL_SEC])

/-- Claim C6: whenever the receiver string does not parse as a public key,
the request is answered with a 400 — for every amount field (absent,
unparseable, in range, out of range, or NaN), every store, and every
gateway oracle.  The receiver check precedes the idempotency lookup and
the ledger call, so no other outcome is reachable. -/
theorem claim_C6_invalid_receiver_always_rejected (cfg : Config)
    (parsePk : String → Bool) (gw : GatewayResult) (now1 now2 : ℚ)
    (st0 : Store) (req : Request) (s : String)
    (hs : req.receiver = some s)
    (hpk : parsePk s = false) :
    (reward_send cfg parsePk gw now1 now2 st0 req).resp.isClientError =
      true := by
  obtain ⟨rrcv, ramt, rik⟩ := req
  simp only at hs
  subst hs
  by_cases hempty : s = ""
  · simp [reward_send, hempty, Response.isClientError]
  · rcases hamt : ramt.getD (.parsed cfg.default_amount) with v | _
    · by_cases hrange : amountOutOfRange v
      · simp [reward_send, hempty, hamt, hrange, Response.isClientError]
      · simp [reward_send, hempty, hamt, hrange, hpk, Response.isClientError]
    · simp [reward_send, hempty, hamt, Response.isClientError]

/-- Witness for C6: a non-decoding receiver with a perfectly valid amount
still yields a 400. -/
theorem claim_C6_invalid_receiver_always_rejected_witness :
    (reward_send (defaultConfig "W") (fun _ => false) (.success "SIG") 0 0 []
        ⟨some "not-an-address", some (.parsed (.num (mkRat 1 50))),
          none⟩).resp.isClientError = true :=
  claim_C6_invalid_receiver_always_rejected (defaultConfig "W")
    (fun _ => false) (.success "SIG") 0 0 []
    ⟨some "not-an-address", some (.parsed (.num (mkRat 1 50))), none⟩
    "not-an-address" rfl rfl

/-- Claim C7: with the reference default `REWARD_SOL_DEFAULT = 0.01`, a
request without `amount_sol` is processed exactly as if it had carried
the configured default, and its response is never an amount validation
failure (`Invalid amount_sol` / `amount_sol out of allowed range`). -/
theorem claim_C7_absent_amount_uses_default (cfg : Config)
    (parsePk : String → Bool) (gw : GatewayResult) (now1 now2 : ℚ)
    (st0 : Store) (rcv : Option String) (ik : Option IdemVal)
    (hcfg : cfg.default_amount = .num (mkRat 1 100)) :
    reward_send cfg parsePk gw now1 now2 st0 ⟨rcv, none, ik⟩ =
      reward_send cfg parsePk gw now1 now2 st0
        ⟨rcv, some (.parsed cfg.default_amount), ik⟩ ∧
    (reward_send cfg parsePk gw now1 now2 st0 ⟨rcv, none, ik⟩).resp ≠
      .clientError "Invalid amount_sol" ∧
    (reward_send cfg parsePk gw now1 now2 st0 ⟨rcv, none, ik⟩).resp ≠
      .clientError "amount_sol out of allowed range" := by
  have hrange : amountOutOfRange (.num (mkRat 1 100)) = false := by decide
  refine ⟨rfl, ?_, ?_⟩ <;>
  · rcases rcv with _ | s
    · simp [reward_send]
    · by_cases hempty : s = ""
      · simp [reward_send, hempty]
      · by_cases hpk : parsePk s
        · rcases hkey : idemGet ik with _ | kstr
          · cases gw <;>
              simp [reward_send, hempty, hcfg, hrange, hpk, hkey, toLamports]
          · rcases hfp : storeLookup (cleanup_paid now1 st0) (s, kstr)
              with _ | rec0
            · cases gw <;>
                simp [reward_send, hempty, hcfg, hrange, hpk, hkey, hfp,
                  toLamports]
            · simp [reward_send, hempty, hcfg, hrange, hpk, hkey, hfp]
        · simp [reward_send, hempty, hcfg, hrange, hpk]

/-- Witness for C7: an amount-less request against an empty store pays
the default 0.01 and is not rejected on the amount. -/
theorem claim_C7_absent_amount_uses_default_witness :
    reward_send (defaultConfig "W") (fun _ => true) (.success "SIG") 0 0 []
        ⟨some "R", none, none⟩ =
      reward_send (defaultConfig "W") (fun _ => true) (.success "SIG") 0 0 []
        ⟨some "R", some (.parsed (defaultConfig "W").default_amount), none⟩ ∧
    (reward_send (defaultConfig "W") (fun _ => true) (.success "SIG") 0 0 []
        ⟨some "R", none, none⟩).resp ≠ .clientError "Invalid amount_sol" ∧
    (reward_send (defaultConfig "W") (fun _ => true) (.success "SIG") 0 0 []
        ⟨some "R", none, none⟩).resp ≠
      .clientError "amount_sol out of allowed range" :=
  claim_C7_absent_amount_uses_default (defaultConfig "W") (fun _ => true)
    (.success "SIG") 0 0 [] (some "R") none rfl

/-- Claim C8, counterexample to "the idempotency store's state is
unchanged by the request": a request failing validation (no receiver)
still runs `cleanup_paid` first (app.py line 75), which here removes an
expired record — the store *does* change. -/
theorem claim_C8_counterexample_sweep_changes_store :
    (reward_send (defaultConfig "W") (fun _ => true) (.success "SIG")
        700000 700000 [(("R", "k"), ("SIG0", 0))]
        ⟨none, none, none⟩).resp.isClientError = true ∧
    (reward_send (defaultConfig "W") (fun _ => true) (.success "SIG")
        700000 700000 [(("R", "k"), ("SIG0", 0))]
        ⟨none, none, none⟩).store ≠ [(("R", "k"), ("SIG0", 0))] := by
  constructor
  · rfl
  · norm_num [reward_send, cleanup_paid, PAID_TTL_SEC, List.filter]

/-- Claim C8 as amended: a request answered with a 400 leaves the store
equal to the swept store — no record is written and the ledger is never
invoked; the only state change is the expiry sweep that runs at the
start of every request. -/
theorem claim_C8_validation_failure_only_sweeps (cfg : Config)
    (parsePk : String → Bool) (gw : GatewayResult) (now1 now2 : ℚ)
    (st0 : Store) (req : Request)
    (h : (reward_send cfg parsePk gw now1 now2 st0 req).resp.isClientError =
      true) :
    (reward_send cfg parsePk gw now1 now2 st0 req).store =
      cleanup_paid now1 st0 ∧
    (reward_send cfg parsePk gw now1 now2 st0 req).ledgerInvoked = false := by
  obtain ⟨rrcv, ramt, rik⟩ := req
  rcases rrcv with _ | s
  · simp [reward_send]
  · by_cases hempty : s = ""
    · simp [reward_send, hempty]
    · rcases hamt : ramt.getD (.parsed cfg.default_amount) with v | _
      · by_cases hrange : amountOutOfRange v
        · simp [reward_send, hempty, hamt, hrange]
        · by_cases hpk : parsePk s
          · exfalso
            rcases hkey : idemGet rik with _ | kstr
            · rcases hl : toLamports v with _ | l
              · simp [reward_send, hempty, hamt, hrange, hpk, hkey, hl,
                  Response.isClientError] at h
              · cases gw <;>
                  simp [reward_send, hempty, hamt, hrange, hpk, hkey, hl,
                    Response.isClientError] at h
            · rcases hfp : storeLookup (cleanup_paid now1 st0) (s, kstr)
                with _ | rec0
              · rcases hl : toLamports v with _ | l
                · simp [reward_send, hempty, hamt, hrange, hpk, hkey, hfp, hl,
                    Response.isClientError] at h
                · cases gw <;>
                    simp [reward_send, hempty, hamt, hrange, hpk, hkey, hfp,
                      hl, Response.isClientError] at h
              · simp [reward_send, hempty, hamt, hrange, hpk, hkey, hfp,
                  Response.isClientError] at h
          · simp [reward_send, hempty, hamt, hrange, hpk]
      · simp [reward_send, hempty, hamt]

/-- Witness for the amended C8: a 400 (missing receiver) against an
empty store leaves the swept store and an untouched ledger. -/
theorem claim_C8_validation_failure_only_sweeps_witness :
    (reward_send (defaultConfig "W") (fun _ => true) (.success "SIG") 0 0 []
        ⟨none, none, none⟩).store = cleanup_paid 0 [] ∧
    (reward_send (defaultConfig "W") (fun _ => true) (.success "SIG") 0 0 []
        ⟨none, none, none⟩).ledgerInvoked = false :=
  claim_C8_validation_failure_only_sweeps (defaultConfig "W") (fun _ => true)
    (.success "SIG") 0 0 [] ⟨none, none, none⟩ rfl
